import Mathlib

/-
Verification of the slog structured-logging core: a shallow embedding of
the Level/FilterLevel model, the string parser, the persistent OwnedKVList
context chain, the Logger, and the Drain composition wrappers, with proofs
of the documented contracts.
-/

namespace Slog

/-- Logging level associated with a logging record (src/lib.rs `enum Level`),
in declaration order Critical, Error, Warning, Info, Debug, Trace. -/
inductive Level where
  | Critical
  | Error
  | Warning
  | Info
  | Debug
  | Trace
deriving DecidableEq, Repr

/-- Logging filtering level (src/lib.rs `enum FilterLevel`), with the extra
`Off` member below `Critical`. -/
inductive FilterLevel where
  | Off
  | Critical
  | Error
  | Warning
  | Info
  | Debug
  | Trace
deriving DecidableEq, Repr

/-- `Level::as_usize` (src/lib.rs): ordering integer, `Critical` is the
smallest value (1) and `Trace` the biggest (6). -/
def Level.as_usize : Level → Nat
  | .Critical => 1
  | .Error => 2
  | .Warning => 3
  | .Info => 4
  | .Debug => 5
  | .Trace => 6

/-- `Level::from_usize` (src/lib.rs): partial inverse of `as_usize`. -/
def Level.from_usize : Nat → Option Level
  | 1 => some .Critical
  | 2 => some .Error
  | 3 => some .Warning
  | 4 => some .Info
  | 5 => some .Debug
  | 6 => some .Trace
  | _ => none

/-- `FilterLevel::as_usize` (src/lib.rs): `Off` is 0 and `Trace` is 6. -/
def FilterLevel.as_usize : FilterLevel → Nat
  | .Off => 0
  | .Critical => 1
  | .Error => 2
  | .Warning => 3
  | .Info => 4
  | .Debug => 5
  | .Trace => 6

/-- `FilterLevel::from_usize` (src/lib.rs): partial inverse of `as_usize`,
total on 0..=6. -/
def FilterLevel.from_usize : Nat → Option FilterLevel
  | 0 => some .Off
  | 1 => some .Critical
  | 2 => some .Error
  | 3 => some .Warning
  | 4 => some .Info
  | 5 => some .Debug
  | 6 => some .Trace
  | _ => none

/-- The `FilterLevel` member carrying the same name as the given `Level`
(the name-correspondence underlying the spec's conversion from `Level`
to `FilterLevel`; the repository exposes the two `as_usize` tables). -/
def FilterLevel.ofLevel : Level → FilterLevel
  | .Critical => .Critical
  | .Error => .Error
  | .Warning => .Warning
  | .Info => .Info
  | .Debug => .Debug
  | .Trace => .Trace

/-- `Level::is_at_least` (src/lib.rs): true when `self` is at least as
severe, i.e. `self.as_usize() <= level.as_usize()`. -/
def Level.is_at_least (l level : Level) : Bool :=
  l.as_usize ≤ level.as_usize

/-- `LOG_LEVEL_NAMES` (src/lib.rs): capitalized level names, indexed by
`as_usize`. -/
def LOG_LEVEL_NAMES : List String :=
  ["OFF", "CRITICAL", "ERROR", "WARN", "INFO", "DEBUG", "TRACE"]

/-- `LOG_LEVEL_SHORT_NAMES` (src/lib.rs): capitalized short level names,
indexed by `as_usize`. -/
def LOG_LEVEL_SHORT_NAMES : List String :=
  ["OFF", "CRIT", "ERRO", "WARN", "INFO", "DEBG", "TRCE"]

/-- `Level::as_short_str` (src/lib.rs): `LOG_LEVEL_SHORT_NAMES[self.as_usize()]`
(always in bounds since `as_usize` ranges over 1..=6). -/
def Level.as_short_str (l : Level) : String :=
  LOG_LEVEL_SHORT_NAMES.getD l.as_usize ""

/-- `Level::as_str` (src/lib.rs): `LOG_LEVEL_NAMES[self.as_usize()]`. -/
def Level.as_str (l : Level) : String :=
  LOG_LEVEL_NAMES.getD l.as_usize ""

/-- `impl fmt::Display for Level` (src/lib.rs): writes `self.as_short_str()`. -/
def Level.display (l : Level) : String :=
  l.as_short_str

/-- `ASCII_LOWERCASE_MAP` (src/lib.rs): the 256-entry byte table is the
identity except on 0x41..=0x5A (ASCII upper-case letters), which map to
the corresponding lower-case letter (+0x20). -/
def ASCII_LOWERCASE_MAP (b : Nat) : Nat :=
  if 0x41 ≤ b ∧ b ≤ 0x5a then b + 0x20 else b

/-- The UTF-8 bytes of an ASCII string literal (`str::as_bytes`), as a
list of byte values. -/
def bytesOf (s : String) : List Nat :=
  s.toList.map Char.toNat

/-- The per-name predicate inside `FromStr for Level` / `FromStr for
FilterLevel` (src/lib.rs): zip the name's bytes with the input's bytes —
truncating at the shorter of the two — and require every aligned pair to
agree after `ASCII_LOWERCASE_MAP` folding. -/
def nameMatches (name s : List Nat) : Bool :=
  (name.zip s).all fun ab =>
    ASCII_LOWERCASE_MAP ab.1 == ASCII_LOWERCASE_MAP ab.2

/-- `Iterator::position`: index of the first element satisfying the
predicate. -/
def position (p : List Nat → Bool) : List (List Nat) → Option Nat
  | [] => none
  | n :: rest => if p n then some 0 else (position p rest).map (· + 1)

/-- The shared `LOG_LEVEL_NAMES.iter().position(...)` step of both
`FromStr` impls (src/lib.rs): position of the first table name whose
zip-truncated case-folded comparison with the input succeeds. -/
def parsePosition (s : List Nat) : Option Nat :=
  position (fun n => nameMatches n s) (LOG_LEVEL_NAMES.map bytesOf)

/-- `impl FromStr for Level` (src/lib.rs lines 1976-1992), byte-level.
The result is wrapped in `Option`: `some` is a normal return and `none`
marks the panic of `.unwrap()` when `Level::from_usize(position)` is
`None` (which the code assumes unreachable). -/
def Level.from_str (s : List Nat) : Option (Except Unit Level) :=
  match parsePosition s with
  | some p =>
    match Level.from_usize p with
    | some l => some (Except.ok l)
    | none => none
  | none => some (Except.error ())

/-- `impl FromStr for FilterLevel` (src/lib.rs lines 1994-2010),
byte-level, with the same `Option` panic marker (here the `.unwrap()`
never fires since `FilterLevel::from_usize` is total on 0..=6). -/
def FilterLevel.from_str (s : List Nat) : Option (Except Unit FilterLevel) :=
  match parsePosition s with
  | some p =>
    match FilterLevel.from_usize p with
    | some l => some (Except.ok l)
    | none => none
  | none => some (Except.error ())

end Slog

namespace Slog

/-- A key-value pair as emitted to a serializer: key text paired with
the serialized value payload. -/
abbrev Pair := String × Int

/-- The reference-counted chain nodes behind an `OwnedKVList`
(src/lib.rs): `()` is the empty terminator, `kvNode` is
`OwnedKVListNode { kv, next_node }`, and `multiNode` is
`MultiListNode { next_node, node }`.  A node value stands for the target
of an `Arc` pointer; sharing a node is reusing the same value. -/
inductive KVNode where
  | unit : KVNode
  | kvNode (kv : List Pair) (next_node : KVNode) : KVNode
  | multiNode (next_node : KVNode) (node : KVNode) : KVNode
deriving DecidableEq, Repr

/-- `KV::serialize` for the chain node types (src/lib.rs): the pairs a node
emits to a serializer, in order.  `impl KV for ()` emits nothing;
`impl KV for OwnedKVListNode` serializes its own `kv` payload and then its
`next_node`; `impl KV for MultiListNode` serializes `next_node` and then
`node`. -/
def KVNode.serialize : KVNode → List Pair
  | .unit => []
  | .kvNode kv next_node => kv ++ next_node.serialize
  | .multiNode next_node node => next_node.serialize ++ node.serialize

/-- `OwnedKVList` (src/lib.rs): an `Arc` pointer to the outermost chain
node. -/
structure OwnedKVList where
  node : KVNode
deriving DecidableEq, Repr

/-- `OwnedKVList::root` (src/lib.rs): one new node wrapping the payload,
whose parent is the empty terminator `Arc::new(())`. -/
def OwnedKVList.root (values : List Pair) : OwnedKVList :=
  ⟨KVNode.kvNode values KVNode.unit⟩

/-- `OwnedKVList::new` (src/lib.rs): one new node wrapping the payload,
whose parent is the existing shared `next_node` pointer (shared, not
copied). -/
def OwnedKVList.new (values : List Pair) (next_node : KVNode) : OwnedKVList :=
  ⟨KVNode.kvNode values next_node⟩

/-- `impl KV for OwnedKVList` (src/lib.rs): delegates to the outermost
node. -/
def OwnedKVList.serialize (l : OwnedKVList) : List Pair :=
  l.node.serialize

/-- `#[derive(Clone)]` on `OwnedKVList` (src/lib.rs): clones the `Arc`,
i.e. yields a pointer to the very same node, allocating no new node. -/
def OwnedKVList.clone (l : OwnedKVList) : OwnedKVList :=
  l

/-- `Logger` (src/lib.rs), restricted to the state the context-chain
contracts depend on: its `OwnedKVList`.  The drain reference is shared
between parent and child and does not affect the chain. -/
structure Logger where
  list : OwnedKVList
deriving DecidableEq, Repr

/-- `Logger::root` (src/lib.rs): starts a new tree with a root chain. -/
def Logger.root (values : List Pair) : Logger :=
  ⟨OwnedKVList.root values⟩

/-- `Logger::new` (src/lib.rs): the child logger's list is
`OwnedKVList::new(values, self.list.node.clone())` — one new node whose
parent pointer is the parent logger's existing node. -/
def Logger.new (lg : Logger) (values : List Pair) : Logger :=
  ⟨OwnedKVList.new values lg.list.node⟩

/-- `#[derive(Clone)]`-style clone of a `Logger` (clones the drain `Arc`
and the list's `Arc`): the same chain nodes, nothing reallocated. -/
def Logger.clone (lg : Logger) : Logger :=
  lg

/-- `impl Drain for Logger` `log` (src/lib.rs lines 1030-1042): the
transient combined list the logger passes to its own drain — a fresh
`MultiListNode` whose `next_node` is the incoming `values.node` and whose
`node` is `self.list.node`, both shared by `Arc::clone`. -/
def Logger.drainForwardedList (lg : Logger) (values : OwnedKVList) :
    OwnedKVList :=
  ⟨KVNode.multiNode values.node lg.list.node⟩

/-- `Never` (src/lib.rs): a type alias standing in for the uninhabited
never type `!` ("will be switched to `!` at some point"); the infallible
error type required of root drains. -/
abbrev Never := Empty

/-- `impl Drain for Duplicate` `log` (src/lib.rs lines 1627-1639): with
`res1` and `res2` the results of logging through both inner drains,
pair the successes when both succeed, and otherwise return an error
carrying both sides' full results. -/
def Duplicate.log {O1 E1 O2 E2 : Type}
    (res1 : Except E1 O1) (res2 : Except E2 O2) :
    Except (Except E1 O1 × Except E2 O2) (O1 × O2) :=
  match res1, res2 with
  | Except.ok o1, Except.ok o2 => Except.ok (o1, o2)
  | r1, r2 => Except.error (r1, r2)

/-- Evaluating the log call of a drain and observing normal return,
returned error, or abnormal termination (panic). -/
inductive Outcome (ε α : Type) where
  | ok (a : α) : Outcome ε α
  | err (e : ε) : Outcome ε α
  | panicked : Outcome ε α
deriving Repr

/-- `impl Drain for Fuse` `log` (src/lib.rs lines 1674-1683): evaluate the
inner drain's result; `unwrap_or_else(|e| panic!(..))` terminates
abnormally on any inner error, and otherwise `Ok(())` is returned with
error type `Never`. -/
def Fuse.log {O E : Type} (inner : Except E O) : Outcome Never Unit :=
  match inner with
  | Except.ok _ => Outcome.ok ()
  | Except.error _ => Outcome.panicked

/-- `impl Drain for IgnoreResult` `log` (src/lib.rs lines 1710-1717):
evaluate the inner drain's result, discard it with `let _ =`, and return
`Ok(())` with error type `Never`. -/
def IgnoreResult.log {O E : Type} (inner : Except E O) : Outcome Never Unit :=
  match inner with
  | _ => Outcome.ok ()

/-- The slice of a logging `Record` (src/lib.rs) that the filtering
wrappers inspect: its level. -/
structure Record where
  level : Level

/-- A terminal sink: an arbitrary `Drain` implementation observed through
its fast-filter check `enabled` and through whether its `log` call on a
given record writes output. -/
structure Sink where
  enabled : Level → Bool
  writes : Record → Bool

/-- A drain composed from the provided wrappers (src/lib.rs): `Discard`,
`Filter(predicate)`, `LevelFilter(level)`, `MapError`, `Duplicate`,
`Fuse`, `IgnoreResult`, `std::sync::Mutex` (whose lock may be poisoned),
and `Logger` used as a drain, over terminal sinks. -/
inductive DrainC where
  | discard : DrainC
  | sink (s : Sink) : DrainC
  | filter (cond : Record → Bool) (d : DrainC) : DrainC
  | levelFilter (lvl : Level) (d : DrainC) : DrainC
  | mapError (d : DrainC) : DrainC
  | duplicate (d1 d2 : DrainC) : DrainC
  | fuse (d : DrainC) : DrainC
  | ignoreRes (d : DrainC) : DrainC
  | mutex (poisoned : Bool) (d : DrainC) : DrainC
  | logger (d : DrainC) : DrainC

/-- `Drain::is_enabled` for each wrapper, as implemented in src/lib.rs:
`Discard` is never enabled; `Filter` delegates to the inner drain (the
predicate cannot be consulted); `LevelFilter` requires the level to pass
the threshold AND the inner drain to agree; `MapError`, `Fuse`,
`IgnoreResult` and `Logger` delegate; `Duplicate` is the OR of both
sides; `Mutex` reports `true` when the lock is unavailable and otherwise
delegates. -/
def DrainC.is_enabled : DrainC → Level → Bool
  | .discard, _ => false
  | .sink s, level => s.enabled level
  | .filter _ d, level => d.is_enabled level
  | .levelFilter lvl d, level => level.is_at_least lvl && d.is_enabled level
  | .mapError d, level => d.is_enabled level
  | .duplicate d1 d2, level => d1.is_enabled level || d2.is_enabled level
  | .fuse d, level => d.is_enabled level
  | .ignoreRes d, level => d.is_enabled level
  | .mutex poisoned d, level =>
    if poisoned then true else d.is_enabled level
  | .logger d, level => d.is_enabled level

/-- Whether a `log` call through the composed drain causes some wrapped
terminal sink to write output, following each wrapper's `log` in
src/lib.rs: `Discard` returns `Ok(())` untouched; `Filter` calls the
inner drain only if the predicate holds; `LevelFilter` only if
`record.level().is_at_least(threshold)`; `MapError`, `Fuse`,
`IgnoreResult` and `Logger` always forward; `Duplicate` forwards to both
sides; `Mutex` forwards only if the lock is acquired (a poisoned lock
returns the `Mutex` error without calling the inner drain). -/
def DrainC.logWrites : DrainC → Record → Bool
  | .discard, _ => false
  | .sink s, record => s.writes record
  | .filter cond d, record =>
    if cond record then d.logWrites record else false
  | .levelFilter lvl d, record =>
    if record.level.is_at_least lvl then d.logWrites record else false
  | .mapError d, record => d.logWrites record
  | .duplicate d1 d2, record => d1.logWrites record || d2.logWrites record
  | .fuse d, record => d.logWrites record
  | .ignoreRes d, record => d.logWrites record
  | .mutex poisoned d, record =>
    if poisoned then false else d.logWrites record
  | .logger d, record => d.logWrites record

/-- The terminal sinks wrapped anywhere inside a composed drain. -/
def DrainC.sinks : DrainC → List Sink
  | .discard => []
  | .sink s => [s]
  | .filter _ d => d.sinks
  | .levelFilter _ d => d.sinks
  | .mapError d => d.sinks
  | .duplicate d1 d2 => d1.sinks ++ d2.sinks
  | .fuse d => d.sinks
  | .ignoreRes d => d.sinks
  | .mutex _ d => d.sinks
  | .logger d => d.sinks

/-- A terminal sink honors the no-false-negative contract: when its own
fast-filter check denies a level, its `log` at that level writes
nothing. -/
def honestSinks (d : DrainC) : Prop :=
  ∀ s ∈ d.sinks, ∀ record : Record,
    s.enabled record.level = false → s.writes record = false

/-- Claim C3: for every pair of levels, `is_at_least` holds exactly when the
first level's ordinal is at most the second's, with Critical carrying the
smallest ordinal and Trace the largest; in particular
Debug.is_at_least(Debug) = true, Debug.is_at_least(Trace) = true and
Debug.is_at_least(Info) = false. -/
theorem level_is_at_least_iff_ordinal_le :
    (∀ l1 l2 : Level, l1.is_at_least l2 = true ↔ l1.as_usize ≤ l2.as_usize) ∧
    (∀ l : Level, Level.Critical.as_usize ≤ l.as_usize ∧
      l.as_usize ≤ Level.Trace.as_usize) ∧
    Level.Debug.is_at_least Level.Debug = true ∧
    Level.Debug.is_at_least Level.Trace = true ∧
    Level.Debug.is_at_least Level.Info = false := by
  refine ⟨fun l1 l2 => ?_, fun l => ?_, rfl, rfl, rfl⟩
  · cases l1 <;> cases l2 <;> simp [Level.is_at_least, Level.as_usize]
  · cases l <;> simp [Level.as_usize]

/-- Claim C4: the same-named `FilterLevel` member of every `Level` has the
same ordinal, and `FilterLevel::Off`'s ordinal (0) is strictly below every
level's ordinal. -/
theorem filterlevel_ordinal_alignment :
    ∀ l : Level, (FilterLevel.ofLevel l).as_usize = l.as_usize ∧
      FilterLevel.Off.as_usize < l.as_usize := by
  intro l
  cases l <;> simp [FilterLevel.ofLevel, FilterLevel.as_usize, Level.as_usize]

/-- Claim C10: `Display` for `Level` yields exactly the short name at the
level's ordinal in `LOG_LEVEL_SHORT_NAMES`; Debug renders as "DEBG" and
Warning as "WARN", and no level ever renders as "DEBUG" or "WARNING". -/
theorem level_display_is_short_name :
    (∀ l : Level, l.display = LOG_LEVEL_SHORT_NAMES.getD l.as_usize "") ∧
    Level.Debug.display = "DEBG" ∧
    Level.Warning.display = "WARN" ∧
    (∀ l : Level, l.display ≠ "DEBUG" ∧ l.display ≠ "WARNING") := by
  refine ⟨fun l => rfl, rfl, rfl, fun l => ?_⟩
  cases l <;> simp [Level.display, Level.as_short_str, Level.as_usize,
    LOG_LEVEL_SHORT_NAMES]

/-- Serializing any chain built by `OwnedKVList.new` emits the new node's
own payload first and then everything the parent chain emits. -/
theorem OwnedKVList.serialize_new (values : List Pair) (next_node : KVNode) :
    (OwnedKVList.new values next_node).serialize =
      values ++ next_node.serialize := rfl

/-- Claim C1: for a root logger with context `{a}`, child `C1` adding `{b}`
and grandchild `C2` adding `{c}`, serializing `C2`'s `OwnedKVList` emits
the pairs in order c, b, a (each node's payload first, then its parent,
newest toward root); `C2`'s node holds the parent chain's node itself as
its `next_node` (shared, not a copy), and cloning `C2` or its list yields
the very same chain nodes. -/
theorem chain_order_and_sharing (a b c : Pair) :
    ((((Logger.root [a]).new [b]).new [c]).list.serialize = [c, b, a]) ∧
    ((((Logger.root [a]).new [b]).new [c]).list.node =
      KVNode.kvNode [c] (((Logger.root [a]).new [b]).list.node)) ∧
    (((Logger.root [a]).new [b]).list.node =
      KVNode.kvNode [b] ((Logger.root [a]).list.node)) ∧
    ((((Logger.root [a]).new [b]).new [c]).clone =
      ((Logger.root [a]).new [b]).new [c]) ∧
    ((((Logger.root [a]).new [b]).new [c]).list.clone =
      (((Logger.root [a]).new [b]).new [c]).list) :=
  ⟨rfl, rfl, rfl, rfl, rfl⟩

/-- Claim C2: a `Logger` used as a `Drain` forwards to its own drain a
combined list that serializes every pair of the incoming `values` first
and then every pair of the logger's own chain; the combined list is a
single fresh `MultiListNode` referencing the two existing chains
unchanged (no node of either chain is modified or extended). -/
theorem logger_drain_forwarding (lg : Logger) (values : OwnedKVList) :
    (lg.drainForwardedList values).serialize =
      values.serialize ++ lg.list.serialize ∧
    (lg.drainForwardedList values).node =
      KVNode.multiNode values.node lg.list.node :=
  ⟨rfl, rfl⟩

/-- `nameMatches` only looks at the input through `ASCII_LOWERCASE_MAP`,
so two inputs with the same case-folded bytes match the same names. -/
theorem nameMatches_congr (name : List Nat) :
    ∀ s t : List Nat,
      s.map ASCII_LOWERCASE_MAP = t.map ASCII_LOWERCASE_MAP →
      nameMatches name s = nameMatches name t := by
  induction name with
  | nil => intro s t _; rfl
  | cons a rest ih =>
    intro s t h
    cases s with
    | nil => cases t with
      | nil => rfl
      | cons y t2 => simp at h
    | cons x s2 =>
      cases t with
      | nil => simp at h
      | cons y t2 =>
        simp only [List.map_cons, List.cons.injEq] at h
        simp only [nameMatches, List.zip_cons_cons, List.all_cons]
        have h2 := ih s2 t2 h.2
        simp only [nameMatches] at h2
        rw [h.1, h2]

/-- Case-folded-equal inputs reach the same table position. -/
theorem parsePosition_congr (s t : List Nat)
    (h : s.map ASCII_LOWERCASE_MAP = t.map ASCII_LOWERCASE_MAP) :
    parsePosition s = parsePosition t := by
  unfold parsePosition
  have hp : ∀ n, nameMatches n s = nameMatches n t :=
    fun n => nameMatches_congr n s t h
  generalize LOG_LEVEL_NAMES.map bytesOf = names
  induction names with
  | nil => rfl
  | cons n rest ih => simp only [position, hp, ih]

/-- Case-folded-equal inputs parse to the same `Level` outcome. -/
theorem level_from_str_congr (s t : List Nat)
    (h : s.map ASCII_LOWERCASE_MAP = t.map ASCII_LOWERCASE_MAP) :
    Level.from_str s = Level.from_str t := by
  unfold Level.from_str
  rw [parsePosition_congr s t h]

/-- Case-folded-equal inputs parse to the same `FilterLevel` outcome. -/
theorem filterlevel_from_str_congr (s t : List Nat)
    (h : s.map ASCII_LOWERCASE_MAP = t.map ASCII_LOWERCASE_MAP) :
    FilterLevel.from_str s = FilterLevel.from_str t := by
  unfold FilterLevel.from_str
  rw [parsePosition_congr s t h]

/-- Claim C5, counterexample: "DEBG" is the canonical 4-character short
name of `Debug` (`LOG_LEVEL_SHORT_NAMES[5]`), yet parsing it reports the
no-match failure instead of yielding `Debug` — the comparison runs against
the long-name table only, truncated to the shorter string, and "DEBG"
diverges from "DEBUG" at its fourth byte. -/
theorem short_name_debg_fails_to_parse :
    Level.as_short_str Level.Debug = "DEBG" ∧
    Level.from_str (bytesOf "DEBG") = some (Except.error ()) ∧
    FilterLevel.from_str (bytesOf "DEBG") = some (Except.error ()) :=
  ⟨rfl, rfl, rfl⟩

/-- Claim C5, amended: parsing compares the input bytes ASCII-case-folded
against the long-name table `LOG_LEVEL_NAMES`, truncating each comparison
at the shorter of the two strings.  Hence every long name, in any ASCII
case, parses to the corresponding member (any input whose case-folded
bytes equal the name's does), and the short names that are truncations of
long names ("CRIT", "ERRO", "WARN", "INFO", "OFF") parse as well, but the
short names "DEBG" and "TRCE" fail; conversely the truncation makes some
strings that are not level names parse successfully ("IN" and "INFOX"
both yield `Info`) while "Iinfo" still fails. -/
theorem level_parse_case_folded_truncated :
    (∀ s, s.map ASCII_LOWERCASE_MAP =
        (bytesOf "CRITICAL").map ASCII_LOWERCASE_MAP →
      Level.from_str s = some (Except.ok Level.Critical)) ∧
    (∀ s, s.map ASCII_LOWERCASE_MAP =
        (bytesOf "ERROR").map ASCII_LOWERCASE_MAP →
      Level.from_str s = some (Except.ok Level.Error)) ∧
    (∀ s, s.map ASCII_LOWERCASE_MAP =
        (bytesOf "WARN").map ASCII_LOWERCASE_MAP →
      Level.from_str s = some (Except.ok Level.Warning)) ∧
    (∀ s, s.map ASCII_LOWERCASE_MAP =
        (bytesOf "INFO").map ASCII_LOWERCASE_MAP →
      Level.from_str s = some (Except.ok Level.Info)) ∧
    (∀ s, s.map ASCII_LOWERCASE_MAP =
        (bytesOf "DEBUG").map ASCII_LOWERCASE_MAP →
      Level.from_str s = some (Except.ok Level.Debug)) ∧
    (∀ s, s.map ASCII_LOWERCASE_MAP =
        (bytesOf "TRACE").map ASCII_LOWERCASE_MAP →
      Level.from_str s = some (Except.ok Level.Trace)) ∧
    (∀ s, s.map ASCII_LOWERCASE_MAP =
        (bytesOf "OFF").map ASCII_LOWERCASE_MAP →
      FilterLevel.from_str s = some (Except.ok FilterLevel.Off)) ∧
    Level.from_str (bytesOf "CRIT") = some (Except.ok Level.Critical) ∧
    Level.from_str (bytesOf "ERRO") = some (Except.ok Level.Error) ∧
    Level.from_str (bytesOf "info") = some (Except.ok Level.Info) ∧
    Level.from_str (bytesOf "INFO") = some (Except.ok Level.Info) ∧
    Level.from_str (bytesOf "DEBG") = some (Except.error ()) ∧
    Level.from_str (bytesOf "TRCE") = some (Except.error ()) ∧
    Level.from_str (bytesOf "IN") = some (Except.ok Level.Info) ∧
    Level.from_str (bytesOf "INFOX") = some (Except.ok Level.Info) ∧
    Level.from_str (bytesOf "Iinfo") = some (Except.error ()) := by
  refine ⟨fun s h => ?_, fun s h => ?_, fun s h => ?_, fun s h => ?_,
    fun s h => ?_, fun s h => ?_, fun s h => ?_,
    rfl, rfl, rfl, rfl, rfl, rfl, rfl, rfl, rfl⟩
  · rw [level_from_str_congr s (bytesOf "CRITICAL") h]; exact rfl
  · rw [level_from_str_congr s (bytesOf "ERROR") h]; exact rfl
  · rw [level_from_str_congr s (bytesOf "WARN") h]; exact rfl
  · rw [level_from_str_congr s (bytesOf "INFO") h]; exact rfl
  · rw [level_from_str_congr s (bytesOf "DEBUG") h]; exact rfl
  · rw [level_from_str_congr s (bytesOf "TRACE") h]; exact rfl
  · rw [filterlevel_from_str_congr s (bytesOf "OFF") h]; exact rfl

/-- Witness for the amended C5 theorem: "critical" case-folds like
"CRITICAL" and indeed parses to `Critical`. -/
theorem level_parse_case_folded_truncated_witness :
    (bytesOf "critical").map ASCII_LOWERCASE_MAP =
      (bytesOf "CRITICAL").map ASCII_LOWERCASE_MAP ∧
    Level.from_str (bytesOf "critical") = some (Except.ok Level.Critical) :=
  ⟨by decide,
    level_parse_case_folded_truncated.1 (bytesOf "critical") (by decide)⟩

/-- Claim C6: `Level::from_str` is not total — on "off" (and on the empty
string, and on anything that case-folds to a mutual truncation of "OFF")
the table position is 0, `Level::from_usize(0)` is `None`, and the
internal `.unwrap()` panics (modelled as `none`); the spec requires a
no-match error there.  `FilterLevel::from_str` on the same inputs returns
normally. -/
theorem level_from_str_panics_on_off :
    Level.from_str (bytesOf "off") = none ∧
    Level.from_str (bytesOf "") = none ∧
    Level.from_str (bytesOf "o") = none ∧
    Level.from_usize 0 = none ∧
    FilterLevel.from_str (bytesOf "off") = some (Except.ok FilterLevel.Off) ∧
    FilterLevel.from_str (bytesOf "") = some (Except.ok FilterLevel.Off) :=
  ⟨rfl, rfl, rfl, rfl, rfl, rfl⟩

/-- Claim C7: `Duplicate(A,B).log` pairs the successes when both inner
drains succeed; in every other case it returns an error embedding both
sides' full results — in particular, when A succeeds and B fails the
error carries A's success alongside B's failure; and the fast-filter
check of `Duplicate` is the disjunction of the two inner checks. -/
theorem duplicate_embeds_both_results :
    (∀ {O1 E1 O2 E2 : Type} (res1 : Except E1 O1) (res2 : Except E2 O2),
      (∀ o1 o2, res1 = Except.ok o1 → res2 = Except.ok o2 →
        Duplicate.log res1 res2 = Except.ok (o1, o2)) ∧
      ((∃ o1 o2, res1 = Except.ok o1 ∧ res2 = Except.ok o2) ∨
        Duplicate.log res1 res2 = Except.error (res1, res2))) ∧
    (∀ {O1 E1 O2 E2 : Type} (o1 : O1) (e2 : E2),
      Duplicate.log (Except.ok o1 : Except E1 O1)
          (Except.error e2 : Except E2 O2) =
        Except.error (Except.ok o1, Except.error e2)) ∧
    (∀ (d1 d2 : DrainC) (level : Level),
      (DrainC.duplicate d1 d2).is_enabled level =
        (d1.is_enabled level || d2.is_enabled level)) := by
  refine ⟨fun res1 res2 => ⟨fun o1 o2 h1 h2 => ?_, ?_⟩,
    fun o1 e2 => rfl, fun d1 d2 level => rfl⟩
  · subst h1; subst h2; rfl
  · cases res1 with
    | ok o1 =>
      cases res2 with
      | ok o2 => exact Or.inl ⟨o1, o2, rfl, rfl⟩
      | error e2 => exact Or.inr rfl
    | error e1 => cases res2 <;> exact Or.inr rfl

/-- Witness for the C7 theorem at concrete inner results. -/
theorem duplicate_embeds_both_results_witness :
    Duplicate.log (Except.ok 7 : Except String Nat)
        (Except.ok 8 : Except String Nat) = Except.ok (7, 8) ∧
    Duplicate.log (Except.ok 7 : Except String Nat)
        (Except.error "boom" : Except String Nat) =
      Except.error (Except.ok 7, Except.error "boom") :=
  ⟨(duplicate_embeds_both_results.1
      (Except.ok 7 : Except String Nat)
      (Except.ok 8 : Except String Nat)).1 7 8 rfl rfl,
    duplicate_embeds_both_results.2.1 7 "boom"⟩

/-- Claim C8: for an always-failing inner drain, `Fuse` terminates
abnormally on `log` instead of returning, while `IgnoreResult` returns
success `()` with the infallible error type `Never` (which has no
inhabitant), silently discarding the inner error. -/
theorem fuse_panics_ignore_result_returns :
    (∀ {O E : Type} (e : E),
      Fuse.log (Except.error e : Except E O) = Outcome.panicked) ∧
    (∀ {O E : Type} (inner : Except E O),
      IgnoreResult.log inner = Outcome.ok ()) ∧
    (∀ n : Never, False) :=
  ⟨fun _ => rfl, fun _ => rfl, fun n => Empty.elim n⟩

/-- Claim C9: for any drain composed from the provided wrappers, over
terminal sinks that honor the no-false-negative contract, if the
composed fast-filter check denies a record's level then a `log` call
with that record causes no wrapped terminal sink to write output. -/
theorem composed_is_enabled_no_false_negative
    (d : DrainC) (record : Record) (hs : honestSinks d)
    (he : d.is_enabled record.level = false) :
    d.logWrites record = false := by
  induction d with
  | discard => rfl
  | sink s =>
    exact hs s (by simp [DrainC.sinks]) record he
  | filter cond d ih =>
    have h := ih (fun s hsin => hs s hsin) he
    simp only [DrainC.logWrites, h, ite_self]
  | levelFilter lvl d ih =>
    simp only [DrainC.is_enabled, Bool.and_eq_false_iff] at he
    simp only [DrainC.logWrites]
    rcases he with he | he
    · simp [he]
    · have h := ih (fun s hsin => hs s hsin) he
      simp [h]
  | mapError d ih => exact ih (fun s hsin => hs s hsin) he
  | duplicate d1 d2 ih1 ih2 =>
    simp only [DrainC.is_enabled, Bool.or_eq_false_iff] at he
    have h1 := ih1 (fun s hsin => hs s (by
      simp only [DrainC.sinks, List.mem_append]; exact Or.inl hsin)) he.1
    have h2 := ih2 (fun s hsin => hs s (by
      simp only [DrainC.sinks, List.mem_append]; exact Or.inr hsin)) he.2
    simp only [DrainC.logWrites, h1, h2, Bool.or_false]
  | fuse d ih => exact ih (fun s hsin => hs s hsin) he
  | ignoreRes d ih => exact ih (fun s hsin => hs s hsin) he
  | mutex poisoned d ih =>
    simp only [DrainC.is_enabled] at he
    simp only [DrainC.logWrites]
    cases poisoned with
    | false =>
      simp only [if_neg Bool.false_ne_true, Bool.false_eq_true, if_false] at he ⊢
      exact ih (fun s hsin => hs s hsin) he
    | true => simp at he
  | logger d ih => exact ih (fun s hsin => hs s hsin) he

/-- Witness for the C9 theorem: a `LevelFilter(Error)` over an honest
terminal sink denies `Info`, and logging an `Info` record through it
writes nothing. -/
theorem composed_is_enabled_no_false_negative_witness :
    honestSinks (DrainC.levelFilter Level.Error
      (DrainC.sink ⟨fun level => level.is_at_least Level.Error,
        fun record => record.level.is_at_least Level.Error⟩)) ∧
    (DrainC.levelFilter Level.Error
      (DrainC.sink ⟨fun level => level.is_at_least Level.Error,
        fun record => record.level.is_at_least Level.Error⟩)).is_enabled
      Level.Info = false ∧
    (DrainC.levelFilter Level.Error
      (DrainC.sink ⟨fun level => level.is_at_least Level.Error,
        fun record => record.level.is_at_least Level.Error⟩)).logWrites
      ⟨Level.Info⟩ = false := by
  have hs : honestSinks (DrainC.levelFilter Level.Error
      (DrainC.sink ⟨fun level => level.is_at_least Level.Error,
        fun record => record.level.is_at_least Level.Error⟩)) := by
    intro s hsin record hrec
    simp only [DrainC.sinks, List.mem_singleton] at hsin
    subst hsin
    exact hrec
  exact ⟨hs, rfl,
    composed_is_enabled_no_false_negative _ ⟨Level.Info⟩ hs rfl⟩

end Slog
